import Mathlib

/-!
Shallow embedding of the diffusion-demo image-generation app:
zod request validation (`src/app/api/generate/route.ts`, tutorial variant),
the Node base64 decoder used by `Buffer.from(result.output, 'base64')`,
the backend retry orchestrator `makeRunPodRequest` (README variant),
the HTTP POST handlers, the client-side `generateImage` 504-retry loop
(`app/page.tsx`), and the `ImageGenerator` component state machine.
-/

namespace DiffusionDemo

/-! ### Request bodies and zod validation

`requestSchema` in `src/app/api/generate/route.ts`:
  prompt: string min 1; num_inference_steps: number 0..100 optional default 27;
  guidance_scale: number 0..100 optional default 27; aspect_ratio: string min 1.
There is no `accept` field in this schema; zod's default object behaviour
strips unknown keys without failing.
The tutorial (Fireworks) variant additionally declares
  accept: z.enum(['image/jpeg','image/png']).default('image/jpeg').
Numeric JSON values are modelled as integers; absent fields as `none`.
zod's `.parse` collects one issue per violating field; we record the issues
by the violating field's name (the zod issue path). -/

structure RawBody where
  prompt : Option String
  num_inference_steps : Option Int
  guidance_scale : Option Int
  aspect_ratio : Option String
  accept : Option String
deriving Repr, DecidableEq

structure ValidatedRunPod where
  prompt : String
  num_inference_steps : Int
  guidance_scale : Int
  aspect_ratio : String
deriving Repr, DecidableEq

structure ValidatedFireworks where
  prompt : String
  num_inference_steps : Int
  guidance_scale : Int
  aspect_ratio : String
  accept : String
deriving Repr, DecidableEq

def stringMin1Issues (field : String) : Option String → List String
  | none => [field]
  | some s => if s.length < 1 then [field] else []

def numRangeIssues (field : String) : Option Int → List String
  | none => []
  | some n => if n < 0 ∨ 100 < n then [field] else []

def runpodIssues (b : RawBody) : List String :=
  stringMin1Issues "prompt" b.prompt
    ++ numRangeIssues "num_inference_steps" b.num_inference_steps
    ++ numRangeIssues "guidance_scale" b.guidance_scale
    ++ stringMin1Issues "aspect_ratio" b.aspect_ratio

def validateRunPod (b : RawBody) : Except (List String) ValidatedRunPod :=
  match runpodIssues b with
  | [] => .ok { prompt := b.prompt.getD ""
              , num_inference_steps := b.num_inference_steps.getD 27
              , guidance_scale := b.guidance_scale.getD 27
              , aspect_ratio := b.aspect_ratio.getD "" }
  | issues => .error issues

def acceptIssues : Option String → List String
  | none => []
  | some a => if a = "image/jpeg" ∨ a = "image/png" then [] else ["accept"]

def fireworksIssues (b : RawBody) : List String :=
  runpodIssues b ++ acceptIssues b.accept

def validateFireworks (b : RawBody) : Except (List String) ValidatedFireworks :=
  match fireworksIssues b with
  | [] => .ok { prompt := b.prompt.getD ""
              , num_inference_steps := b.num_inference_steps.getD 27
              , guidance_scale := b.guidance_scale.getD 27
              , aspect_ratio := b.aspect_ratio.getD ""
              , accept := b.accept.getD "image/jpeg" }
  | issues => .error issues

/-! ### Node's lenient base64 decoder

`Buffer.from(s, 'base64')` never throws for a string argument: characters
outside the base64 alphabet are ignored, decoding stops at the first `=`,
and a trailing group of 2 or 3 sextets yields 1 or 2 bytes.  Calling it on
`undefined` (absent `output` field) throws a TypeError. -/

def b64Val (c : Char) : Option Nat :=
  if 'A' ≤ c ∧ c ≤ 'Z' then some (c.toNat - 65)
  else if 'a' ≤ c ∧ c ≤ 'z' then some (c.toNat - 71)
  else if '0' ≤ c ∧ c ≤ '9' then some (c.toNat + 4)
  else if c = '+' then some 62
  else if c = '/' then some 63
  else none

def b64Sextets (s : String) : List Nat :=
  (s.toList.takeWhile (· ≠ '=')).filterMap b64Val

def b64Bytes : List Nat → List Nat
  | a :: b :: c :: d :: rest =>
      (a * 4 + b / 16) :: ((b % 16) * 16 + c / 4) :: ((c % 4) * 64 + d) :: b64Bytes rest
  | [a, b] => [a * 4 + b / 16]
  | [a, b, c] => [a * 4 + b / 16, (b % 16) * 16 + c / 4]
  | _ => []

def bufferFromBase64 (s : String) : List Nat :=
  b64Bytes (b64Sextets s)

example : bufferFromBase64 "aGVsbG8=" = [104, 101, 108, 108, 111] := by decide

example : bufferFromBase64 "!!!!" = [] := by decide

/-! ### Backend attempt outcomes and the retry orchestrator

`makeRunPodRequest` (README variant of the route): up to `maxRetries = 3`
attempts.  An attempt either parses a JSON envelope from an ok response
(`.ok`), observes a non-ok response whose JSON error body may carry a
`message` and has the response's status (`.httpError`), or the fetch throws
(`.fetchThrow`).  On a transient failure with an attempt remaining the code
logs, sleeps `3000` ms and continues; on the last attempt it throws — the
error object built from the last attempt's message for a non-ok response
(`error.message || 'Failed to generate image'`), or the transport exception
itself.  The trailing `throw lastError` after the loop is unreachable.
The backend is a function from the 0-based attempt index to its outcome;
`fetches` counts fetch calls and `sleeps` counts the 3000 ms waits. -/

structure Envelope where
  output : Option String
  delayTime : Option Nat
  executionTime : Option Nat
  id : Option String
deriving Repr, DecidableEq

inductive AttemptOutcome where
  | ok (env : Envelope)
  | httpError (message : Option String) (status : Nat)
  | fetchThrow (e : String)
deriving Repr, DecidableEq

def AttemptOutcome.isTransientFail : AttemptOutcome → Bool
  | .ok _ => false
  | .httpError _ _ => true
  | .fetchThrow _ => true

def retryDelayMs : Nat := 3000

structure OrchRun where
  result : Except String Envelope
  fetches : Nat
  sleeps : Nat
deriving Repr

/-- One pass of the `for` loop of `makeRunPodRequest`, with `fuel` attempts
remaining (the current 0-based attempt index is `3 - fuel`); the
`attempt < maxRetries - 1` guard is `fuel - 1 > 0`. -/
def orchGo (backend : Nat → AttemptOutcome) : Nat → Option String → OrchRun
  | 0, last => { result := .error (last.getD "undefined"), fetches := 0, sleeps := 0 }
  | fuel + 1, _ =>
    match backend (3 - (fuel + 1)) with
    | .ok env => { result := .ok env, fetches := 1, sleeps := 0 }
    | .httpError msg _ =>
      if 0 < fuel then
        let r := orchGo backend fuel (some (msg.getD "Failed to generate image"))
        { r with fetches := r.fetches + 1, sleeps := r.sleeps + 1 }
      else
        { result := .error (msg.getD "Failed to generate image"), fetches := 1, sleeps := 0 }
    | .fetchThrow e =>
      if 0 < fuel then
        let r := orchGo backend fuel (some e)
        { r with fetches := r.fetches + 1, sleeps := r.sleeps + 1 }
      else
        { result := .error e, fetches := 1, sleeps := 0 }

def makeRunPodRequest (backend : Nat → AttemptOutcome) : OrchRun :=
  orchGo backend 3 none

def OrchRun.totalWaitMs (r : OrchRun) : Nat := r.sleeps * retryDelayMs

/-! ### HTTP responses and the POST handlers -/

inductive ResBody where
  | jsonError (error : String) (details : Option (List String))
  | bytes (data : List Nat)
deriving Repr, DecidableEq

structure HttpResponse where
  status : Nat
  body : ResBody
  headers : List (String × String)
deriving Repr, DecidableEq

def cacheHeader : String × String := ("Cache-Control", "public, max-age=31536000")

def genericFailure : String := "Failed to generate image"

/-- Outcome of the handler after a successful `makeRunPodRequest`:
`Buffer.from(result.output, 'base64')`.  An absent `output` makes
`Buffer.from(undefined, 'base64')` throw a TypeError, which the surrounding
catch turns into the generic 500 response; a string `output` always decodes
(leniently) and is returned as the 200 body with only the cache header. -/
def runpodSuccessResponse (env : Envelope) : HttpResponse :=
  match env.output with
  | none => { status := 500, body := .jsonError genericFailure none, headers := [] }
  | some s => { status := 200, body := .bytes (bufferFromBase64 s), headers := [cacheHeader] }

/-- `POST` of the README (retry) variant: validate, run `makeRunPodRequest`,
decode the envelope.  The catch block maps a `ZodError` to 400 with details
and every other thrown error to the generic 500 response. -/
def runpodRetryPOST (b : RawBody) (backend : Nat → AttemptOutcome) : HttpResponse :=
  match validateRunPod b with
  | .error issues => { status := 400, body := .jsonError "Invalid request data" (some issues), headers := [] }
  | .ok _ =>
    match (makeRunPodRequest backend).result with
    | .error _ => { status := 500, body := .jsonError genericFailure none, headers := [] }
    | .ok env => runpodSuccessResponse env

/-- `POST` of `src/app/api/generate/route.ts` (single-attempt RunPod
variant): a non-ok backend response is answered inline with
`{ error: error.message || 'Failed to generate image' }` at the backend's
own status; a transport throw falls into the catch and yields the generic
500; a successful envelope is decoded as above. -/
def runpodPOST (b : RawBody) (outcome : AttemptOutcome) : HttpResponse :=
  match validateRunPod b with
  | .error issues => { status := 400, body := .jsonError "Invalid request data" (some issues), headers := [] }
  | .ok _ =>
    match outcome with
    | .fetchThrow _ => { status := 500, body := .jsonError genericFailure none, headers := [] }
    | .httpError msg status => { status := status, body := .jsonError (msg.getD genericFailure) none, headers := [] }
    | .ok env => runpodSuccessResponse env

/-- Backend outcome for the tutorial (Fireworks, binary) variant: the ok
body is the raw image bytes of `response.arrayBuffer()`. -/
inductive FireworksOutcome where
  | ok (data : List Nat)
  | httpError (message : Option String) (status : Nat)
  | fetchThrow (e : String)
deriving Repr, DecidableEq

/-- `POST` of the tutorial (Fireworks) variant: validation uses the schema
with the `accept` enum; a success returns the raw bytes with both the
resolved `Content-Type` (the validated `accept`) and the cache header. -/
def fireworksPOST (b : RawBody) (outcome : FireworksOutcome) : HttpResponse :=
  match validateFireworks b with
  | .error issues => { status := 400, body := .jsonError "Invalid request data" (some issues), headers := [] }
  | .ok v =>
    match outcome with
    | .fetchThrow _ => { status := 500, body := .jsonError genericFailure none, headers := [] }
    | .httpError msg status => { status := status, body := .jsonError (msg.getD genericFailure) none, headers := [] }
    | .ok data =>
      { status := 200, body := .bytes data
      , headers := [("Content-Type", v.accept), cacheHeader] }

/-! ### Client-side `generateImage` 504-retry loop (`app/page.tsx`)

`MAX_RETRIES = 3`, `RETRY_DELAY = 1000` ms.  The loop body fetches into the
mutable `response` variable; when `fetch` throws, `response` keeps the value
of the previous iteration.  A 504 increments `attempts`, sleeps and
continues while `attempts < 3`; the third 504 throws the gateway-timeout
error, which the catch swallows (`response.status` is 504), so the loop
exits and the final `throw` after the loop fires with the same message.
A non-ok non-504 response throws the error body's message, which the catch
rethrows (`response.status !== 504`).  A transport throw is rethrown only
when the retained `response` is not a 504 — a throw after an observed 504
is swallowed and the loop re-fetches without touching `attempts`.
The script of fetch outcomes is a list consumed one element per fetch;
`.stuck` means the loop would issue a fetch beyond the supplied script. -/

inductive FetchOutcome where
  | throws (e : String)
  | resp (status : Nat) (errMsg : Option String) (blob : List Nat)
deriving Repr, DecidableEq

def gatewayTimeoutMsg : String :=
  "Gateway Timeout: Server took too long to respond after multiple retries"

inductive ClientResult where
  | success (blob : List Nat)
  | failure (msg : String)
  | stuck
deriving Repr, DecidableEq

structure ClientRun where
  result : ClientResult
  fetches : Nat
  sleeps : Nat
deriving Repr, DecidableEq

def clientRetryDelayMs : Nat := 1000

/-- The `while (attempts < MAX_RETRIES)` loop of `generateImage`; `prev` is
the status of the value currently held by the `response` variable. -/
def clientLoop : List FetchOutcome → Nat → Option Nat → ClientRun
  | [], attempts, _ =>
    if attempts < 3 then
      { result := .stuck, fetches := 0, sleeps := 0 }
    else
      { result := .failure gatewayTimeoutMsg, fetches := 0, sleeps := 0 }
  | o :: rest, attempts, prev =>
    if attempts < 3 then
      match o with
      | .throws e =>
        if prev = some 504 then
          let r := clientLoop rest attempts prev
          { r with fetches := r.fetches + 1 }
        else
          { result := .failure e, fetches := 1, sleeps := 0 }
      | .resp status errMsg blob =>
        if status = 504 then
          if attempts + 1 < 3 then
            let r := clientLoop rest (attempts + 1) (some 504)
            { r with fetches := r.fetches + 1, sleeps := r.sleeps + 1 }
          else
            { result := .failure gatewayTimeoutMsg, fetches := 1, sleeps := 0 }
        else if 200 ≤ status ∧ status < 300 then
          { result := .success blob, fetches := 1, sleeps := 0 }
        else
          { result := .failure (errMsg.getD genericFailure), fetches := 1, sleeps := 0 }
    else
      { result := .failure gatewayTimeoutMsg, fetches := 0, sleeps := 0 }

/-- `generateImage` enters the loop with `attempts = 0` and `response`
still `undefined`. -/
def generateImage (outcomes : List FetchOutcome) : ClientRun :=
  clientLoop outcomes 0 none

/-! ### `ImageGenerator` component state machine
(`src/components/ImageGenerator.tsx`, the history-carousel version)

State: `settings`, `imageUrl`, the `generatedImages` history, plus two
observation logs — `created` (object URLs handed to the component by a
successful `onGenerate`) and `revoked` (every `URL.revokeObjectURL` call).
The mount-only `useEffect` (empty dependency array) registers a cleanup
that closes over the `generatedImages` binding of the first render, i.e.
the initial empty array; `cleanupCaptured` records that captured value.
`handleGenerate` contains no `revokeObjectURL` call: it only sets the new
`imageUrl` and prepends the new record.  The history `onClick` sets
`imageUrl` and `settings` from the clicked record and touches nothing
else. -/

structure GenerationSettings where
  prompt : String
  aspectRatio : String
  guidanceScale : Int
  numInferenceSteps : Int
  seed : Int
  accept : String
deriving Repr, DecidableEq

structure GeneratedImage where
  url : String
  prompt : String
  timestamp : Nat
  settings : GenerationSettings
deriving Repr, DecidableEq

def initialSettings : GenerationSettings :=
  { prompt := "", aspectRatio := "16:9", guidanceScale := 0
  , numInferenceSteps := 4, seed := 0, accept := "image/jpeg" }

structure ComponentState where
  settings : GenerationSettings
  imageUrl : Option String
  generatedImages : List GeneratedImage
  cleanupCaptured : List GeneratedImage
  created : List String
  revoked : List String
deriving Repr, DecidableEq

def mountState : ComponentState :=
  { settings := initialSettings, imageUrl := none, generatedImages := []
  , cleanupCaptured := [], created := [], revoked := [] }

inductive ComponentEvent where
  | setSettings (s : GenerationSettings)
  | generateSuccess (url : String) (now : Nat)
  | generateFailure
  | selectHistory (i : Nat)
  | unmount
deriving Repr, DecidableEq

def componentStep (st : ComponentState) : ComponentEvent → ComponentState
  | .setSettings s => { st with settings := s }
  | .generateSuccess url now =>
    let newImage : GeneratedImage :=
      { url := url, prompt := st.settings.prompt, timestamp := now
      , settings := st.settings }
    { st with imageUrl := some url
            , generatedImages := newImage :: st.generatedImages
            , created := st.created ++ [url] }
  | .generateFailure => st
  | .selectHistory i =>
    match st.generatedImages.get? i with
    | none => st
    | some img => { st with imageUrl := some img.url, settings := img.settings }
  | .unmount =>
    { st with revoked := st.revoked ++ st.cleanupCaptured.map (·.url) }

def componentRun (events : List ComponentEvent) : ComponentState :=
  events.foldl componentStep mountState

/-! ## Theorems -/

/-- C1: the claim — each display handle created by a successful generation
is released exactly once, on supersession or at teardown, with 3
generations yielding exactly 2 supersession releases plus a final teardown
release — fails on the code.  `handleGenerate` contains no
`revokeObjectURL` call, and the unmount cleanup (registered by the
`useEffect` with an empty dependency array) iterates the `generatedImages`
value captured at mount, the empty array, contradicting its own comment
`Cleanup URLs when component unmounts`.  A session that generates three
images and unmounts creates three handles and releases none. -/
theorem c1_no_handle_ever_released :
    (componentRun [.generateSuccess "blob:a" 1, .generateSuccess "blob:b" 2,
                   .generateSuccess "blob:c" 3, .unmount]).created =
      ["blob:a", "blob:b", "blob:c"] ∧
    (componentRun [.generateSuccess "blob:a" 1, .generateSuccess "blob:b" 2,
                   .generateSuccess "blob:c" 3, .unmount]).revoked = [] :=
  ⟨rfl, rfl⟩

def historyScenario (sA : GenerationSettings) (uA : String) (tA : Nat)
    (sB : GenerationSettings) (uB : String) (tB : Nat) : ComponentState :=
  componentRun [.setSettings sA, .generateSuccess uA tA,
                .setSettings sB, .generateSuccess uB tB]

/-- C5: every successful generation prepends its record (carrying a
snapshot of the originating settings) to the history, so generating A then
B yields history `[B, A]`; selecting a history entry replaces the
displayed record with that entry's url and restores the entry's settings,
leaving the history (and the revocation log) untouched. -/
theorem c5_history_prepend_and_select (st : ComponentState) (url : String) (now : Nat)
    (sA sB : GenerationSettings) (uA uB : String) (tA tB : Nat) :
    (componentStep st (.generateSuccess url now)).generatedImages =
      { url := url, prompt := st.settings.prompt, timestamp := now
      , settings := st.settings } :: st.generatedImages ∧
    (historyScenario sA uA tA sB uB tB).generatedImages.map GeneratedImage.url = [uB, uA] ∧
    componentStep (historyScenario sA uA tA sB uB tB) (.selectHistory 1) =
      { historyScenario sA uA tA sB uB tB with imageUrl := some uA, settings := sA } :=
  ⟨rfl, rfl, rfl⟩

theorem orchGo_fetches_le (backend : Nat → AttemptOutcome) (fuel : Nat) :
    ∀ last, (orchGo backend fuel last).fetches ≤ fuel := by
  induction fuel with
  | zero => intro last; simp [orchGo]
  | succ n ih =>
    intro last
    simp only [orchGo]
    cases h : backend (3 - (n + 1)) with
    | ok env => simp [h]
    | httpError msg s =>
      simp only [h]
      split
      · exact Nat.succ_le_succ (ih _)
      · exact Nat.succ_le_succ (Nat.zero_le n)
    | fetchThrow e =>
      simp only [h]
      split
      · exact Nat.succ_le_succ (ih _)
      · exact Nat.succ_le_succ (Nat.zero_le n)

/-- C3: the orchestrator makes at most 3 fetch attempts for any backend; a
first-attempt success is returned immediately with no waiting; and when
attempts 1 and 2 fail transiently (non-ok response or transport throw) and
attempt 3 succeeds, it returns the attempt-3 envelope after exactly two
constant retry delays (2 × 3000 ms). -/
theorem c3_retry_policy (backend : Nat → AttemptOutcome)
    (f1 f2 : AttemptOutcome) (env : Envelope)
    (hf1 : f1.isTransientFail = true) (hf2 : f2.isTransientFail = true)
    (h0 : backend 0 = f1) (h1 : backend 1 = f2) (h2 : backend 2 = .ok env) :
    (∀ bk : Nat → AttemptOutcome, (makeRunPodRequest bk).fetches ≤ 3) ∧
    (∀ (bk : Nat → AttemptOutcome) (e : Envelope), bk 0 = .ok e →
      makeRunPodRequest bk = { result := .ok e, fetches := 1, sleeps := 0 }) ∧
    makeRunPodRequest backend = { result := .ok env, fetches := 3, sleeps := 2 } ∧
    (makeRunPodRequest backend).totalWaitMs = 2 * retryDelayMs := by
  have hmain : makeRunPodRequest backend = { result := .ok env, fetches := 3, sleeps := 2 } := by
    cases f1 with
    | ok e => simp [AttemptOutcome.isTransientFail] at hf1
    | httpError m1 s1 =>
      cases f2 with
      | ok e => simp [AttemptOutcome.isTransientFail] at hf2
      | httpError m2 s2 => simp [makeRunPodRequest, orchGo, h0, h1, h2]
      | fetchThrow e2 => simp [makeRunPodRequest, orchGo, h0, h1, h2]
    | fetchThrow e1 =>
      cases f2 with
      | ok e => simp [AttemptOutcome.isTransientFail] at hf2
      | httpError m2 s2 => simp [makeRunPodRequest, orchGo, h0, h1, h2]
      | fetchThrow e2 => simp [makeRunPodRequest, orchGo, h0, h1, h2]
  refine ⟨fun bk => orchGo_fetches_le bk 3 none, ?_, hmain, ?_⟩
  · intro bk e he
    simp [makeRunPodRequest, orchGo, he]
  · rw [hmain]; rfl

def c3Backend : Nat → AttemptOutcome
  | 0 => .fetchThrow "connection reset"
  | 1 => .httpError (some "worker busy") 503
  | _ => .ok { output := some "aGVsbG8=", delayTime := some 5
             , executionTime := some 9, id := some "job-1" }

def c3Env : Envelope :=
  { output := some "aGVsbG8=", delayTime := some 5
  , executionTime := some 9, id := some "job-1" }

/-- C3 witness: the retry policy evaluated at a concrete backend that
throws on attempt 1, answers 503 on attempt 2 and succeeds on attempt 3. -/
theorem c3_retry_policy_witness :
    (∀ bk : Nat → AttemptOutcome, (makeRunPodRequest bk).fetches ≤ 3) ∧
    (∀ (bk : Nat → AttemptOutcome) (e : Envelope), bk 0 = .ok e →
      makeRunPodRequest bk = { result := .ok e, fetches := 1, sleeps := 0 }) ∧
    makeRunPodRequest c3Backend = { result := .ok c3Env, fetches := 3, sleeps := 2 } ∧
    (makeRunPodRequest c3Backend).totalWaitMs = 2 * retryDelayMs :=
  c3_retry_policy c3Backend (.fetchThrow "connection reset")
    (.httpError (some "worker busy") 503) c3Env rfl rfl rfl rfl rfl

def c2Backend : Nat → AttemptOutcome
  | 0 => .httpError (some "backend error one") 502
  | 1 => .httpError (some "backend error two") 503
  | _ => .httpError (some "backend error three") 522

def validBody : RawBody :=
  { prompt := some "cat", num_inference_steps := none
  , guidance_scale := none, aspect_ratio := some "16:9", accept := none }

/-- C2 counterexample: with a backend that fails all three attempts with
distinct messages and statuses, the orchestrator does surface the
attempt-3 message, but the HTTP response is the generic
`Failed to generate image` at status 500 — the POST catch block only
special-cases `ZodError` — so the response does not carry the last error's
message (`backend error three`) or status (522), refuting the claim. -/
theorem c2_counterexample :
    (makeRunPodRequest c2Backend).result = .error "backend error three" ∧
    runpodRetryPOST validBody c2Backend =
      { status := 500, body := .jsonError "Failed to generate image" none
      , headers := [] } ∧
    (500 : Nat) ≠ 522 ∧ "Failed to generate image" ≠ "backend error three" :=
  ⟨rfl, rfl, by decide, by decide⟩

/-- C2 (amended): when all three attempts fail with non-ok responses, the
orchestrator's surfaced error equals the message observed on the last
(third) attempt, not the first; but the HTTP response returned to the
client is always the generic `Failed to generate image` with status 500 —
the catch block maps every non-validation error to that generic response
and never propagates the backend's message or status. -/
theorem c2_last_error_surfaced (backend : Nat → AttemptOutcome) (b : RawBody)
    (m1 m2 m3 : String) (s1 s2 s3 : Nat)
    (h0 : backend 0 = .httpError (some m1) s1)
    (h1 : backend 1 = .httpError (some m2) s2)
    (h2 : backend 2 = .httpError (some m3) s3)
    (hb : runpodIssues b = []) :
    (makeRunPodRequest backend).result = .error m3 ∧
    runpodRetryPOST b backend =
      { status := 500, body := .jsonError genericFailure none, headers := [] } := by
  have hres : (makeRunPodRequest backend).result = .error m3 := by
    simp [makeRunPodRequest, orchGo, h0, h1, h2]
  refine ⟨hres, ?_⟩
  simp only [runpodRetryPOST, validateRunPod, hb]
  rw [hres]

/-- C2 witness: the amended statement evaluated at the concrete
triple-failure backend and a valid request body. -/
theorem c2_last_error_surfaced_witness :
    (makeRunPodRequest c2Backend).result = .error "backend error three" ∧
    runpodRetryPOST validBody c2Backend =
      { status := 500, body := .jsonError genericFailure none, headers := [] } :=
  c2_last_error_surfaced c2Backend validBody
    "backend error one" "backend error two" "backend error three"
    502 503 522 rfl rfl rfl rfl

/-- C4 counterexample: after an observed 504, a transport throw from
`fetch` is swallowed by the catch block (the retained `response` still has
status 504), and the request is retried — so a non-504 error neither
propagates to the UI nor stops the retrying, refuting the claim that the
client retries only on an HTTP 504 response and that any non-504 error
propagates with no further retry.  Here the run even succeeds, on the
fetch after the throw. -/
theorem c4_counterexample :
    generateImage [.resp 504 none [], .throws "network down", .resp 200 none [9]] =
      { result := .success [9], fetches := 3, sleeps := 1 } :=
  rfl

/-- C4 (amended): the client retries on HTTP 504 up to 3 attempts total
with a fixed 1 s delay, without re-validating or mutating settings: the
504, 504, 200 sequence displays the third response after exactly two
delays, three 504s exhaust the budget into the gateway-timeout failure
after two delays, a non-504 error response or a transport throw with no
504 yet observed propagates immediately with no further fetch — but a
transport throw after an observed 504 is swallowed and the request is
refetched without incrementing the attempt counter. -/
theorem c4_client_504_retry (b1 b2 b3 blob : List Nat) (e1 e2 e3 : Option String)
    (rest : List FetchOutcome) (status : Nat) (errMsg : Option String) (bl : List Nat)
    (attempts : Nat) (prev : Option Nat) (e : String)
    (hs504 : status ≠ 504) (hsOk : ¬(200 ≤ status ∧ status < 300))
    (ha : attempts < 3) (hprev : prev ≠ some 504) :
    generateImage [.resp 504 e1 b1, .resp 504 e2 b2, .resp 200 e3 blob] =
      { result := .success blob, fetches := 3, sleeps := 2 } ∧
    generateImage [.resp 504 e1 b1, .resp 504 e2 b2, .resp 504 e3 b3] =
      { result := .failure gatewayTimeoutMsg, fetches := 3, sleeps := 2 } ∧
    clientLoop (.resp status errMsg bl :: rest) attempts prev =
      { result := .failure (errMsg.getD genericFailure), fetches := 1, sleeps := 0 } ∧
    clientLoop (.throws e :: rest) attempts prev =
      { result := .failure e, fetches := 1, sleeps := 0 } ∧
    clientLoop (.throws e :: rest) attempts (some 504) =
      { result := (clientLoop rest attempts (some 504)).result
      , fetches := (clientLoop rest attempts (some 504)).fetches + 1
      , sleeps := (clientLoop rest attempts (some 504)).sleeps } := by
  refine ⟨rfl, rfl, ?_, ?_, ?_⟩
  · simp [clientLoop, ha, hs504, hsOk]
  · simp [clientLoop, ha, hprev]
  · simp [clientLoop, ha]

/-- C4 witness: the amended statement at concrete inputs — a 500 response
propagating at once, a transport throw with no prior 504 propagating at
once, and a throw after a 504 being swallowed. -/
theorem c4_client_504_retry_witness :
    generateImage [.resp 504 none [], .resp 504 none [1], .resp 200 none [9]] =
      { result := .success [9], fetches := 3, sleeps := 2 } ∧
    generateImage [.resp 504 none [], .resp 504 none [1], .resp 504 none [2]] =
      { result := .failure gatewayTimeoutMsg, fetches := 3, sleeps := 2 } ∧
    clientLoop [.resp 500 (some "boom") []] 0 none =
      { result := .failure ((some "boom").getD genericFailure), fetches := 1, sleeps := 0 } ∧
    clientLoop [.throws "down"] 0 none =
      { result := .failure "down", fetches := 1, sleeps := 0 } ∧
    clientLoop [.throws "down"] 0 (some 504) =
      { result := (clientLoop [] 0 (some 504)).result
      , fetches := (clientLoop [] 0 (some 504)).fetches + 1
      , sleeps := (clientLoop [] 0 (some 504)).sleeps } :=
  c4_client_504_retry [] [1] [2] [9] none none none [] 500 (some "boom") [] 0 none "down"
    (by decide) (by decide) (by decide) (by decide)

def FetchOutcome.isThrows : FetchOutcome → Bool
  | .throws _ => true
  | .resp _ _ _ => false

def countThrows (outcomes : List FetchOutcome) : Nat :=
  outcomes.countP FetchOutcome.isThrows

theorem clientLoop_fetches_le (outcomes : List FetchOutcome) :
    ∀ attempts prev, (clientLoop outcomes attempts prev).fetches ≤
      (3 - attempts) + countThrows outcomes := by
  induction outcomes with
  | nil =>
    intro a p
    by_cases h : a < 3 <;> simp [clientLoop, h]
  | cons o rest ih =>
    intro a p
    by_cases h : a < 3
    · cases o with
      | throws e =>
        by_cases hp : p = some 504
        · subst hp
          have hr := ih a (some 504)
          simp only [countThrows] at hr ⊢
          simp [clientLoop, h, List.countP_cons, FetchOutcome.isThrows]
          omega
        · simp [clientLoop, h, hp, countThrows, List.countP_cons, FetchOutcome.isThrows]
          omega
      | resp status errMsg blob =>
        by_cases h5 : status = 504
        · by_cases h13 : a + 1 < 3
          · have hr := ih (a + 1) (some 504)
            simp only [countThrows] at hr ⊢
            simp [clientLoop, h, h5, h13, List.countP_cons, FetchOutcome.isThrows]
            omega
          · simp [clientLoop, h, h5, h13, countThrows, List.countP_cons,
              FetchOutcome.isThrows]
            omega
        · by_cases hok : 200 ≤ status ∧ status < 300 <;>
            · simp [clientLoop, h, h5, hok, countThrows, List.countP_cons,
                FetchOutcome.isThrows]
              omega
    · simp [clientLoop, h]

theorem clientLoop_throws_replicate (e : String) : ∀ n : Nat,
    clientLoop (List.replicate n (.throws e)) 1 (some 504) =
      { result := .stuck, fetches := n, sleeps := 0 } := by
  intro n
  induction n with
  | zero => rfl
  | succ m ih => simp [List.replicate_succ, clientLoop, ih]

/-- C10 (amended): the `generateImage` loop performs at most 3 fetch calls
on any outcome sequence free of transport throws, and in general at most
3 + T where T counts the transport throws it consumes; but a throw after
an observed 504 is swallowed without incrementing the attempts counter, so
a 504 followed by n transport throws leaves the loop still demanding
another fetch after n + 1 fetch calls, for every n — the loop neither
terminates nor keeps within 3 fetch calls on such sequences. -/
theorem c10_fetch_bound (outcomes : List FetchOutcome) (e : String) (n : Nat)
    (hnt : countThrows outcomes = 0) :
    (generateImage outcomes).fetches ≤ 3 ∧
    (∀ os : List FetchOutcome, (generateImage os).fetches ≤ 3 + countThrows os) ∧
    generateImage (.resp 504 none [] :: List.replicate n (.throws e)) =
      { result := .stuck, fetches := n + 1, sleeps := 1 } := by
  refine ⟨?_, ?_, ?_⟩
  · have h := clientLoop_fetches_le outcomes 0 none
    rw [hnt] at h
    simpa [generateImage] using h
  · intro os
    have h := clientLoop_fetches_le os 0 none
    simpa [generateImage, Nat.add_comm] using h
  · simp [generateImage, clientLoop, clientLoop_throws_replicate]

/-- C10 counterexample: a 504 followed by two transport throws and then a
200 drives the loop through four fetch calls — the throws after the 504
are swallowed without incrementing the attempts counter — refuting the
claim that the loop performs at most 3 fetch calls on every sequence of
fetch outcomes. -/
theorem c10_counterexample :
    generateImage [.resp 504 none [], .throws "boom", .throws "boom",
                   .resp 200 none [7]] =
      { result := .success [7], fetches := 4, sleeps := 1 } :=
  rfl

/-- C10 witness: the amended bounds at a throw-free sequence and the
stuck family at n = 2. -/
theorem c10_fetch_bound_witness :
    (generateImage [.resp 504 none [], .resp 503 (some "bad gateway") []]).fetches ≤ 3 ∧
    (∀ os : List FetchOutcome, (generateImage os).fetches ≤ 3 + countThrows os) ∧
    generateImage (.resp 504 none [] :: List.replicate 2 (.throws "boom")) =
      { result := .stuck, fetches := 2 + 1, sleeps := 1 } :=
  c10_fetch_bound [.resp 504 none [], .resp 503 (some "bad gateway") []] "boom" 2 rfl

def mkBody (pr : Option String) (ns g : Option Int) (ar acc : Option String) : RawBody :=
  { prompt := pr, num_inference_steps := ns, guidance_scale := g
  , aspect_ratio := ar, accept := acc }

def mkEnv (out : Option String) (dt et : Option Nat) (jid : Option String) : Envelope :=
  { output := out, delayTime := dt, executionTime := et, id := jid }

/-- C6: for any prompt of length ≥ 1 and aspect_ratio of length ≥ 1,
omitting guidance_scale and num_inference_steps validates successfully
with both defaulted to 27; a present value of either field outside [0,100]
fails validation with a field-level violation naming that field. -/
theorem c6_defaults_and_range (p a : String) (g n : Int)
    (hp : 1 ≤ p.length) (ha : 1 ≤ a.length)
    (hg : g < 0 ∨ 100 < g) (hn : n < 0 ∨ 100 < n) :
    validateRunPod (mkBody (some p) none none (some a) none) =
      .ok { prompt := p, num_inference_steps := 27, guidance_scale := 27
          , aspect_ratio := a } ∧
    (∃ issues, validateRunPod (mkBody (some p) none (some g) (some a) none) =
        .error issues ∧ "guidance_scale" ∈ issues) ∧
    (∃ issues, validateRunPod (mkBody (some p) (some n) none (some a) none) =
        .error issues ∧ "num_inference_steps" ∈ issues) := by
  have hp' : ¬ (p.length < 1) := by omega
  have ha' : ¬ (a.length < 1) := by omega
  refine ⟨?_, ⟨["guidance_scale"], ?_, by simp⟩, ⟨["num_inference_steps"], ?_, by simp⟩⟩
  · simp [validateRunPod, runpodIssues, mkBody, stringMin1Issues, numRangeIssues, hp', ha']
  · simp [validateRunPod, runpodIssues, mkBody, stringMin1Issues, numRangeIssues, hp', ha', hg]
  · simp [validateRunPod, runpodIssues, mkBody, stringMin1Issues, numRangeIssues, hp', ha', hn]

/-- C6 witness: prompt `cat`, aspect_ratio `16:9`, with guidance_scale 150
and num_inference_steps -1 as the out-of-range probes. -/
theorem c6_defaults_and_range_witness :
    validateRunPod (mkBody (some "cat") none none (some "16:9") none) =
      .ok { prompt := "cat", num_inference_steps := 27, guidance_scale := 27
          , aspect_ratio := "16:9" } ∧
    (∃ issues, validateRunPod (mkBody (some "cat") none (some 150) (some "16:9") none) =
        .error issues ∧ "guidance_scale" ∈ issues) ∧
    (∃ issues, validateRunPod (mkBody (some "cat") (some (-1)) none (some "16:9") none) =
        .error issues ∧ "num_inference_steps" ∈ issues) :=
  c6_defaults_and_range "cat" "16:9" 150 (-1)
    (by decide) (by decide) (by decide) (by decide)

/-- C7 counterexample: the deployed route's schema declares no `accept`
field, so a body whose accept is `text/html` — neither of the two
supported media types — still validates successfully (zod strips unknown
keys rather than failing), refuting the claim that every body with an
unsupported accept fails validation. -/
theorem c7_counterexample :
    ("text/html" ≠ "image/jpeg" ∧ "text/html" ≠ "image/png") ∧
    validateRunPod (mkBody (some "cat") none none (some "16:9") (some "text/html")) =
      .ok { prompt := "cat", num_inference_steps := 27, guidance_scale := 27
          , aspect_ratio := "16:9" } :=
  ⟨by decide, rfl⟩

/-- C7 (amended): only the tutorial (Fireworks) schema restricts accept —
a present accept that is neither image/jpeg nor image/png fails its
validation with a violation on accept, and an absent accept defaults to
image/jpeg; the deployed route's schema has no accept field, so its
validation result is independent of the accept value and never fails
because of it. -/
theorem c7_accept_enum (p a acc : String) (b : RawBody) (x y : Option String)
    (hp : 1 ≤ p.length) (ha : 1 ≤ a.length)
    (hacc1 : acc ≠ "image/jpeg") (hacc2 : acc ≠ "image/png") :
    (∃ issues, validateFireworks (mkBody (some p) none none (some a) (some acc)) =
        .error issues ∧ "accept" ∈ issues) ∧
    validateFireworks (mkBody (some p) none none (some a) none) =
      .ok { prompt := p, num_inference_steps := 27, guidance_scale := 27
          , aspect_ratio := a, accept := "image/jpeg" } ∧
    validateRunPod { b with accept := x } = validateRunPod { b with accept := y } := by
  have hp' : ¬ (p.length < 1) := by omega
  have ha' : ¬ (a.length < 1) := by omega
  refine ⟨⟨["accept"], ?_, by simp⟩, ?_, rfl⟩
  · simp [validateFireworks, fireworksIssues, runpodIssues, mkBody, stringMin1Issues,
      numRangeIssues, acceptIssues, hp', ha', hacc1, hacc2]
  · simp [validateFireworks, fireworksIssues, runpodIssues, mkBody, stringMin1Issues,
      numRangeIssues, acceptIssues, hp', ha']

/-- C7 witness: the amended statement at accept `text/plain` against the
Fireworks schema, and two accept values against the deployed schema. -/
theorem c7_accept_enum_witness :
    (∃ issues, validateFireworks (mkBody (some "cat") none none (some "16:9")
        (some "text/plain")) = .error issues ∧ "accept" ∈ issues) ∧
    validateFireworks (mkBody (some "cat") none none (some "16:9") none) =
      .ok { prompt := "cat", num_inference_steps := 27, guidance_scale := 27
          , aspect_ratio := "16:9", accept := "image/jpeg" } ∧
    validateRunPod { validBody with accept := some "text/plain" } =
      validateRunPod { validBody with accept := none } :=
  c7_accept_enum "cat" "16:9" "text/plain" validBody (some "text/plain") none
    (by decide) (by decide) (by decide) (by decide)

/-- C8 counterexample: a successful generation through the deployed RunPod
route returns 200 with the decoded image bytes and the one-year cache
directive, but its headers carry no content type at all, refuting the
claim that every success response includes the resolved content type. -/
theorem c8_counterexample :
    runpodPOST validBody (.ok (mkEnv (some "aGVsbG8=") (some 3) (some 4) (some "job-2"))) =
      { status := 200, body := .bytes [104, 101, 108, 108, 111]
      , headers := [cacheHeader] } ∧
    ((runpodPOST validBody
        (.ok (mkEnv (some "aGVsbG8=") (some 3) (some 4) (some "job-2")))).headers.map
          Prod.fst).contains "Content-Type" = false :=
  ⟨rfl, by decide⟩

/-- C8 (amended): every successful generation returns HTTP 200 with body
the image bytes and a one-year cache directive; the resolved content type
header is additionally present only in the tutorial (Fireworks) variant —
the deployed RunPod route sends the cache header alone. -/
theorem c8_success_response (b : RawBody) (env : Envelope) (s : String) (data : List Nat)
    (hb : runpodIssues b = []) (hout : env.output = some s)
    (hfb : fireworksIssues b = []) :
    runpodPOST b (.ok env) =
      { status := 200, body := .bytes (bufferFromBase64 s), headers := [cacheHeader] } ∧
    (∃ v, validateFireworks b = .ok v ∧
      fireworksPOST b (.ok data) =
        { status := 200, body := .bytes data
        , headers := [("Content-Type", v.accept), cacheHeader] }) := by
  refine ⟨?_, ?_⟩
  · simp [runpodPOST, validateRunPod, hb, runpodSuccessResponse, hout]
  · refine ⟨{ prompt := b.prompt.getD "", num_inference_steps := b.num_inference_steps.getD 27
            , guidance_scale := b.guidance_scale.getD 27
            , aspect_ratio := b.aspect_ratio.getD ""
            , accept := b.accept.getD "image/jpeg" }, ?_, ?_⟩
    · simp [validateFireworks, hfb]
    · simp [fireworksPOST, validateFireworks, hfb]

/-- C8 witness: the amended statement at a valid body, a base64 envelope
and concrete raw bytes. -/
theorem c8_success_response_witness :
    runpodPOST validBody (.ok (mkEnv (some "aGVsbG8=") none none none)) =
      { status := 200, body := .bytes (bufferFromBase64 "aGVsbG8=")
      , headers := [cacheHeader] } ∧
    (∃ v, validateFireworks validBody = .ok v ∧
      fireworksPOST validBody (.ok [1, 2, 3]) =
        { status := 200, body := .bytes [1, 2, 3]
        , headers := [("Content-Type", v.accept), cacheHeader] }) :=
  c8_success_response validBody (mkEnv (some "aGVsbG8=") none none none)
    "aGVsbG8=" [1, 2, 3] rfl rfl rfl

/-- C9 counterexample: `Buffer.from` never throws on a malformed base64
string — every character of `!!!!` is outside the base64 alphabet and is
ignored — so the base64 variant returns HTTP 200 with the (empty) decoded
bytes instead of raising a NormalizationError, refuting the claim that a
malformed output value raises one. -/
theorem c9_counterexample :
    bufferFromBase64 "!!!!" = [] ∧
    runpodRetryPOST validBody (fun _ => .ok (mkEnv (some "!!!!") none none none)) =
      { status := 200, body := .bytes [], headers := [cacheHeader] } :=
  ⟨rfl, rfl⟩

/-- C9 (amended): a string output field normalizes — with no error and no
further retries — to Buffer.from's lenient base64 decoding of that string
(for a valid base64 string, exactly its decoded bytes), returned as the
200 response body; an absent output makes `Buffer.from(undefined,
'base64')` throw a TypeError after the retry loop — never retried — which
the catch block reports as the generic 500 failure; a malformed base64
string raises nothing, its invalid characters being ignored. -/
theorem c9_normalization (b : RawBody) (s : String) (env envN : Envelope)
    (backend backendN : Nat → AttemptOutcome)
    (hb : runpodIssues b = [])
    (h1 : backend 0 = .ok env) (hout : env.output = some s)
    (h2 : backendN 0 = .ok envN) (houtN : envN.output = none) :
    makeRunPodRequest backend = { result := .ok env, fetches := 1, sleeps := 0 } ∧
    runpodRetryPOST b backend =
      { status := 200, body := .bytes (bufferFromBase64 s), headers := [cacheHeader] } ∧
    makeRunPodRequest backendN = { result := .ok envN, fetches := 1, sleeps := 0 } ∧
    runpodRetryPOST b backendN =
      { status := 500, body := .jsonError genericFailure none, headers := [] } := by
  have m1 : makeRunPodRequest backend = { result := .ok env, fetches := 1, sleeps := 0 } := by
    simp [makeRunPodRequest, orchGo, h1]
  have m2 : makeRunPodRequest backendN = { result := .ok envN, fetches := 1, sleeps := 0 } := by
    simp [makeRunPodRequest, orchGo, h2]
  refine ⟨m1, ?_, m2, ?_⟩
  · simp [runpodRetryPOST, validateRunPod, hb, m1, runpodSuccessResponse, hout]
  · simp [runpodRetryPOST, validateRunPod, hb, m2, runpodSuccessResponse, houtN]

def c9Env : Envelope := mkEnv (some "aGVsbG8=") none none none

def c9EnvAbsent : Envelope := mkEnv none none none none

/-- C9 witness: the amended statement at a valid-base64 envelope and an
envelope with no output field. -/
theorem c9_normalization_witness :
    makeRunPodRequest (fun _ => .ok c9Env) =
      { result := .ok c9Env, fetches := 1, sleeps := 0 } ∧
    runpodRetryPOST validBody (fun _ => .ok c9Env) =
      { status := 200, body := .bytes (bufferFromBase64 "aGVsbG8=")
      , headers := [cacheHeader] } ∧
    makeRunPodRequest (fun _ => .ok c9EnvAbsent) =
      { result := .ok c9EnvAbsent, fetches := 1, sleeps := 0 } ∧
    runpodRetryPOST validBody (fun _ => .ok c9EnvAbsent) =
      { status := 500, body := .jsonError genericFailure none, headers := [] } :=
  c9_normalization validBody "aGVsbG8=" c9Env c9EnvAbsent
    (fun _ => .ok c9Env) (fun _ => .ok c9EnvAbsent) rfl rfl rfl rfl rfl

end DiffusionDemo
